import Mathlib

/-!
A shallow embedding of the MNEE Sentinel treasury-governance gate.

The embedding follows the Python source:
* `src/agents/auditor_agent.py` — the compliance evaluation
  (`AuditorAgent._parse_proposal_text` confidence scoring,
  `AuditorAgent._check_compliance`, `AuditorAgent.audit_proposal`);
* `src/utils/db_utils.py` — the ledger-store helpers
  (`is_vendor_whitelisted`, `get_remaining_budget`,
  `check_transaction_velocity`, `update_budget_spent`,
  `update_velocity_tracker`, `log_audit_decision`);
* `src/config/settings.py` — the business-logic constants;
* `src/app.py` — the post-decision recording flow (audit-log write,
  budget and velocity mutations).

Modelling conventions: monetary amounts are `ℚ`; timestamps are `ℤ`
measured in hours; the Supabase tables are Lean lists carried in a
`GovState`; a `try/except` around a table query is modelled by an
`Except Unit` argument holding either the query answer or the failure.
The AI branch of `audit_proposal` (taken only when an LLM API key is
configured) is external and nondeterministic; the embedding models the
deterministic `self.llm is None` path, which is the rule ladder the
specification describes.
-/

namespace MneeSentinel

/-- ASCII lower-casing of a character, as Python `str.lower` acts on the
ASCII letters appearing in vendor names and hex addresses. -/
def asciiLower (c : Char) : Char :=
  if 'A' ≤ c ∧ c ≤ 'Z' then Char.ofNat (c.toNat + 32) else c

/-- Python `s.lower()` on a string. -/
def lowerStr (s : String) : String :=
  ⟨s.data.map asciiLower⟩

/-- Do the characters begin with `0` then `x`? -/
def startsWith0xAux : List Char → Bool
  | c1 :: c2 :: _ => c1 == '0' && c2 == 'x'
  | _ => false

/-- Python `s.startswith("0x")`. -/
def startsWith0x (s : String) : Bool :=
  startsWith0xAux s.data

/-- Drop leading spaces (Python `str.split` separators, modelled as the
space character, the only whitespace occurring in parsed vendor names). -/
def dropSpaces : List Char → List Char
  | [] => []
  | c :: cs => if c = ' ' then dropSpaces cs else c :: cs

/-- Take characters up to the next space. -/
def takeWord : List Char → List Char
  | [] => []
  | c :: cs => if c = ' ' then [] else c :: takeWord cs

/-- Python `s.split()[0]`, returning `none` when `split()` yields no words
(in which case the source raises `IndexError`, caught by the surrounding
`try`). -/
def firstWord? (s : String) : Option String :=
  match dropSpaces s.data with
  | [] => none
  | c :: cs => some ⟨takeWord (c :: cs)⟩

/-- Does `pat` occur as a contiguous run inside the list? -/
def containsAux (pat : List Char) : List Char → Bool
  | [] => pat.isEmpty
  | c :: cs => List.isPrefixOf pat (c :: cs) || containsAux pat cs

/-- Substring test: does `pat` occur inside `s`?  Models both Python
`in` and the SQL `ilike "%pat%"` pattern (after both sides are
lower-cased by the caller). -/
def strContains (s pat : String) : Bool :=
  containsAux pat.data s.data

/-! ### Business-logic constants, from `src/config/settings.py` lines 43-45 -/

def VELOCITY_WINDOW_HOURS : ℤ := 24

def MAX_TRANSACTIONS_PER_VENDOR_PER_DAY : ℕ := 10

/-- `settings.py` line 45: `CONFIDENCE_THRESHOLD = 0.70`, commented there
as the "70% minimum confidence for approval". -/
def CONFIDENCE_THRESHOLD : ℚ := 7/10

/-! ### Data model -/

/-- A row of the `whitelisted_vendors` table. -/
structure WhitelistedVendor where
  vendor_name : String
  wallet_address : String
  category : String
  max_transaction_limit : ℚ
  is_active : Bool
deriving DecidableEq

/-- A row of the `budgets` table. -/
structure BudgetRow where
  category : String
  monthly_limit_mnee : ℚ
  current_spent : ℚ
deriving DecidableEq

/-- A row of the `transaction_velocity` table.  `window_start` is a
timestamp in hours. -/
structure VelocityRecord where
  id : ℕ
  vendor_address : String
  window_start : ℤ
  transaction_count : ℕ
  total_amount : ℚ
deriving DecidableEq

/-- A row of the `audit_logs` table, as written by
`GovernanceDB.log_audit_decision`. -/
structure AuditLogEntry where
  proposal_text : String
  vendor_name : String
  vendor_address : String
  amount : ℚ
  category : String
  decision : String
  reasoning : String
  ai_confidence : ℚ
  transaction_hash : Option String
deriving DecidableEq

/-- The ledger store: the four Supabase tables. -/
structure GovState where
  vendors : List WhitelistedVendor
  budgets : List BudgetRow
  velocity : List VelocityRecord
  auditLogs : List AuditLogEntry
deriving DecidableEq

/-- `ParsedProposal` from `auditor_agent.py` lines 50-56. -/
structure ParsedProposal where
  vendor_name : String
  vendor_address : String
  amount : ℚ
  category : String
  confidence : ℚ
deriving DecidableEq

/-- The confidence score assigned by `_parse_proposal_text`
(`auditor_agent.py` lines 229-238): +0.3 for a recognised vendor name,
+0.3 for a wallet address, +0.2 for a positive amount, +0.2 for a
category other than "General". -/
def parseConfidence (vendor_name vendor_address : String) (amount : ℚ)
    (category : String) : ℚ :=
  (if vendor_name ≠ "" ∧ vendor_name ≠ "Unknown Vendor" then 3/10 else 0) +
  (if vendor_address ≠ "" then 3/10 else 0) +
  (if 0 < amount then 2/10 else 0) +
  (if category ≠ "General" then 2/10 else 0)

/-! ### Ledger-store helpers, from `src/utils/db_utils.py`

Each helper takes the outcome of its table query as an `Except Unit`
value: `.ok rows` is the answered query, `.error ()` is the
unreachable/timeout case caught by the Python `except` block. -/

/-- `GovernanceDB.is_vendor_whitelisted` (`db_utils.py` lines 82-101):
query `whitelisted_vendors` for `wallet_address == addr.lower()` and
`is_active == True`; on failure return `(False, None)`. -/
def is_vendor_whitelisted (res : Except Unit (List WhitelistedVendor))
    (wallet_address : String) : Bool × Option WhitelistedVendor :=
  match res with
  | .error _ => (false, none)
  | .ok vendors =>
    match (vendors.filter fun v =>
        v.wallet_address = lowerStr wallet_address && v.is_active).head? with
    | some v => (true, some v)
    | none => (false, none)

/-- `GovernanceDB.get_remaining_budget` (`db_utils.py` lines 42-59):
`(limit - spent, limit)` for the category row; `(0, 0)` when the row is
absent or the query fails. -/
def get_remaining_budget (res : Except Unit (List BudgetRow))
    (category : String) : ℚ × ℚ :=
  match res with
  | .error _ => (0, 0)
  | .ok rows =>
    match (rows.filter fun b => b.category = category).head? with
    | some b => (b.monthly_limit_mnee - b.current_spent, b.monthly_limit_mnee)
    | none => (0, 0)

/-- Is `r` the active velocity window for `addr` at time `now`?  The
query in `check_transaction_velocity` filters on
`vendor_address == addr.lower()` and `window_start >= now - 24h`. -/
def activeFor (now : ℤ) (addr : String) (r : VelocityRecord) : Bool :=
  r.vendor_address = lowerStr addr &&
    decide (now - VELOCITY_WINDOW_HOURS ≤ r.window_start)

/-- `GovernanceDB.check_transaction_velocity` (`db_utils.py` lines
114-146).  Returns `(is_safe, reason)`.  The `amount` argument is
accepted but unused by the source (amount-based velocity checks are a
stated extension point).  On query failure the source returns
`(True, "Velocity check unavailable (defaulting to allow)")`. -/
def check_transaction_velocity (res : Except Unit (List VelocityRecord))
    (now : ℤ) (vendor_address : String) (_amount : ℚ) : Bool × String :=
  match res with
  | .error _ => (true, "Velocity check unavailable (defaulting to allow)")
  | .ok records =>
    match (records.filter (activeFor now vendor_address)).head? with
    | some r =>
      if MAX_TRANSACTIONS_PER_VENDOR_PER_DAY ≤ r.transaction_count then
        (false, "Exceeded max transactions (" ++
          toString MAX_TRANSACTIONS_PER_VENDOR_PER_DAY ++ "/day)")
      else
        (true, "Velocity check passed")
    | none => (true, "Velocity check passed")

/-- `GovernanceDB.update_budget_spent` (`db_utils.py` lines 61-76):
fetch the first row of the category, add `amount` to its
`current_spent`, and write that value back to every row of the
category; no-op when the category is absent. -/
def update_budget_spent (budgets : List BudgetRow) (category : String)
    (amount : ℚ) : List BudgetRow :=
  match (budgets.filter fun b => b.category = category).head? with
  | none => budgets
  | some b0 =>
    budgets.map fun b =>
      if b.category = category then
        { b with current_spent := b0.current_spent + amount }
      else b

/-- `GovernanceDB.update_velocity_tracker` (`db_utils.py` lines 148-180):
increment the active window row (matched by its `id`) or insert a fresh
window with `window_start = now`; `newId` is the id the store assigns
to an inserted row. -/
def update_velocity_tracker (records : List VelocityRecord) (now : ℤ)
    (vendor_address : String) (amount : ℚ) (newId : ℕ) :
    List VelocityRecord :=
  match (records.filter (activeFor now vendor_address)).head? with
  | some r0 =>
    records.map fun r =>
      if r.id = r0.id then
        { r with
          transaction_count := r.transaction_count + 1
          total_amount := r.total_amount + amount }
      else r
  | none =>
    records ++ [{ id := newId, vendor_address := lowerStr vendor_address,
                  window_start := now, transaction_count := 1,
                  total_amount := amount }]

/-- `GovernanceDB.log_audit_decision` (`db_utils.py` lines 186-221):
append one immutable row to `audit_logs`, lower-casing the vendor
address. -/
def log_audit_decision (logs : List AuditLogEntry)
    (proposal_text vendor_name vendor_address : String) (amount : ℚ)
    (category decision reasoning : String) (ai_confidence : ℚ)
    (transaction_hash : Option String) : List AuditLogEntry :=
  logs ++ [{ proposal_text := proposal_text, vendor_name := vendor_name,
             vendor_address := lowerStr vendor_address, amount := amount,
             category := category, decision := decision,
             reasoning := reasoning, ai_confidence := ai_confidence,
             transaction_hash := transaction_hash }]

/-! ### The compliance evaluation, from `src/agents/auditor_agent.py` -/

/-- The boolean check results built by `AuditorAgent._check_compliance`
(`auditor_agent.py` lines 282-336), together with the `details` entries
the decision ladder later reads. -/
structure ComplianceChecks where
  vendor_whitelisted : Bool
  within_budget : Bool
  within_tx_limit : Bool
  valid_address : Bool
  velocity_ok : Bool
  vendorDetail : Option WhitelistedVendor
  budgetRemaining : Option ℚ
deriving DecidableEq

/-- The address test of `_check_compliance` line 294:
`parsed.vendor_address and len(parsed.vendor_address) == 42 and
parsed.vendor_address.startswith("0x")`. -/
def valid_address (s : String) : Bool :=
  !s.data.isEmpty && s.data.length == 42 && startsWith0x s

/-- The vendor query of `_check_compliance` lines 302-305:
`ilike("vendor_name", f"%{parsed.vendor_name.split()[0]}%")` — a
case-insensitive substring match of the first word of the parsed vendor
name against the stored vendor name.  Note it matches by NAME, consults
neither the wallet address nor `is_active`. -/
def vendorNameMatches (w : String) (v : WhitelistedVendor) : Bool :=
  strContains (lowerStr v.vendor_name) (lowerStr w)

/-- `AuditorAgent._check_compliance` (`auditor_agent.py` lines 282-336)
on an answering store.  When `parsed.vendor_name` has no words,
`split()[0]` raises and the surrounding `except` leaves every check at
its default (`velocity_ok` starts — and stays — `True`; no velocity
query is ever issued). -/
def check_compliance (st : GovState) (p : ParsedProposal) :
    ComplianceChecks :=
  let va := valid_address p.vendor_address
  match firstWord? p.vendor_name with
  | none =>
    { vendor_whitelisted := false, within_budget := false,
      within_tx_limit := false, valid_address := va, velocity_ok := true,
      vendorDetail := none, budgetRemaining := none }
  | some w =>
    let vmatch := (st.vendors.filter (vendorNameMatches w)).head?
    let brow := (st.budgets.filter fun b => b.category = p.category).head?
    { vendor_whitelisted := vmatch.isSome
      within_budget :=
        match brow with
        | some b => decide (p.amount ≤ b.monthly_limit_mnee - b.current_spent)
        | none => false
      within_tx_limit :=
        match vmatch with
        | some v => decide (p.amount ≤ v.max_transaction_limit)
        | none => false
      valid_address := va
      velocity_ok := true
      vendorDetail := vmatch
      budgetRemaining :=
        match brow with
        | some b => some (b.monthly_limit_mnee - b.current_spent)
        | none => none }

/-- Rendering of an amount into a reasoning string: Python prints an
integral float as e.g. `50.0`; non-integral values are abbreviated as
`num/den` (no claim depends on their digits). -/
def renderAmount (q : ℚ) : String :=
  if q.den = 1 then toString q.num ++ ".0"
  else toString q.num ++ "/" ++ toString q.den

/-- Two-digit zero-padded rendering of `n ∈ [0, 100)`. -/
def twoDigits (n : ℤ) : String :=
  if n < 10 then "0" ++ toString n else toString n

/-- Python `f"{q:.2f}"` for the nonnegative amounts of the source,
truncated to cents (exact for amounts with at most two decimals). -/
def render2f (q : ℚ) : String :=
  let cents : ℤ := (q * 100).num / ((q * 100).den : ℤ)
  toString (cents / 100) ++ "." ++ twoDigits (cents % 100)

/-- `audit_proposal` line 360: the whitelist rejection reason. -/
def reasoningWhitelist (vendor_name : String) : String :=
  "Vendor \x27" ++ vendor_name ++
    "\x27 is not in the whitelist. Only pre-approved vendors can receive payments."

/-- `audit_proposal` line 365: the budget rejection reason. -/
def reasoningBudget (amount remaining : ℚ) (category : String) : String :=
  "Insufficient budget. Requested " ++ renderAmount amount ++
    " MNEE but only " ++ render2f remaining ++ " MNEE remaining in " ++
    category ++ " category."

/-- `audit_proposal` line 370: the transaction-limit rejection reason.
Its only interpolations are the requested amount and the vendor limit;
the overage is not computed. -/
def reasoningTxLimit (amount max_limit : ℚ) : String :=
  "Amount " ++ renderAmount amount ++
    " MNEE exceeds vendor\x27s transaction limit of " ++
    renderAmount max_limit ++ " MNEE."

/-- `audit_proposal` line 374: the address rejection reason. -/
def reasoningAddress : String :=
  "Invalid wallet address format. Must be 42 characters starting with 0x."

/-- `audit_proposal` line 400: the approval reason on the non-AI path. -/
def reasoningApproved : String :=
  "All compliance checks passed. Vendor is whitelisted and within budget limits."

/-- The result record built by `audit_proposal` (decision, confidence,
reasoning, the parsed proposal and the check details). -/
structure AuditResult where
  decision : String
  confidence : ℚ
  reasoning : String
  parsed : ParsedProposal
  checks : ComplianceChecks
deriving DecidableEq

/-- `AuditorAgent.audit_proposal` (`auditor_agent.py` lines 338-411),
decision ladder on the deterministic (`self.llm is None`) path:
whitelist → budget → transaction limit → address (the address branch
fires only for a nonempty parsed address) → APPROVED.  No confidence
gate and no velocity check appear in the ladder. -/
def audit_decision (st : GovState) (p : ParsedProposal) : AuditResult :=
  let c := check_compliance st p
  if !c.vendor_whitelisted then
    { decision := "REJECTED", confidence := 95/100,
      reasoning := reasoningWhitelist p.vendor_name, parsed := p, checks := c }
  else if !c.within_budget then
    { decision := "REJECTED", confidence := 95/100,
      reasoning := reasoningBudget p.amount (c.budgetRemaining.getD 0) p.category,
      parsed := p, checks := c }
  else if !c.within_tx_limit then
    { decision := "REJECTED", confidence := 95/100,
      reasoning :=
        reasoningTxLimit p.amount
          ((c.vendorDetail.map WhitelistedVendor.max_transaction_limit).getD 0),
      parsed := p, checks := c }
  else if !c.valid_address && !p.vendor_address.data.isEmpty then
    { decision := "REJECTED", confidence := 90/100,
      reasoning := reasoningAddress, parsed := p, checks := c }
  else
    { decision := "APPROVED", confidence := 85/100,
      reasoning := reasoningApproved, parsed := p, checks := c }

/-! ### The post-decision recording flow, from `src/app.py` -/

/-- The payment-rail result (`MNEETokenManager.execute_transfer`). -/
structure TxResult where
  success : Bool
  tx_hash : String
deriving DecidableEq

/-- The audit-log row the app writes for a result (`app.py` lines
452-462 and 513-522). -/
def mkAuditEntry (proposal_text : String) (res : AuditResult)
    (transaction_hash : Option String) : AuditLogEntry :=
  { proposal_text := proposal_text, vendor_name := res.parsed.vendor_name,
    vendor_address := lowerStr res.parsed.vendor_address,
    amount := res.parsed.amount, category := res.parsed.category,
    decision := res.decision, reasoning := res.reasoning,
    ai_confidence := res.confidence, transaction_hash := transaction_hash }

/-- The recording flow of `app.py` lines 439-523.  On APPROVED the
audit log, budget and velocity are written only when the user triggered
execution (`exec = some t`) and the transfer reported success; on the
REJECTED branch exactly the audit log is written (the parsed record, a
5-field tuple, is always truthy). -/
def record_outcome (st : GovState) (now : ℤ) (newId : ℕ)
    (proposal_text : String) (res : AuditResult) (exec : Option TxResult) :
    GovState :=
  if res.decision = "APPROVED" then
    match exec with
    | some t =>
      if t.success then
        { st with
          auditLogs := st.auditLogs ++ [mkAuditEntry proposal_text res (some t.tx_hash)]
          budgets := update_budget_spent st.budgets res.parsed.category res.parsed.amount
          velocity := update_velocity_tracker st.velocity now
            res.parsed.vendor_address res.parsed.amount newId }
      else st
    | none => st
  else
    { st with
      auditLogs := st.auditLogs ++ [mkAuditEntry proposal_text res none] }

/-! ### Spec-side definition, for the refinement comparison of the
address validator -/

/-- Is `c` a hexadecimal character? -/
def isHexChar (c : Char) : Bool :=
  ('0' ≤ c && c ≤ '9') || ('a' ≤ c && c ≤ 'f') || ('A' ≤ c && c ≤ 'F')

/-- Spec-side address validator, following the specification's words
("true iff `s` matches `0x` followed by exactly 40 hexadecimal
characters"), stated for comparison with the source's `valid_address`. -/
def specIsValidAddress (s : String) : Bool :=
  match s.data with
  | '0' :: 'x' :: rest => rest.length == 40 && rest.all isHexChar
  | _ => false

/-! ### Concrete fixtures used by the claim theorems -/

/-- An active whitelisted vendor with a 100 MNEE transaction limit. -/
def c1Vendor : WhitelistedVendor :=
  { vendor_name := "PT Alpha Consulting",
    wallet_address := "0xaaaaaaaaaaaaaaaaaaaaaaaaaaaaaaaaaaaaaaaa",
    category := "Software", max_transaction_limit := 100, is_active := true }

/-- A store holding `c1Vendor` and a funded "General" budget. -/
def c1State : GovState :=
  { vendors := [c1Vendor],
    budgets := [{ category := "General", monthly_limit_mnee := 1000,
                  current_spent := 0 }],
    velocity := [], auditLogs := [] }

/-- A proposal parsed with no wallet address and the catch-all category:
its parse confidence is 0.3 + 0 + 0.2 + 0 = 0.5, below the 0.70
threshold. -/
def c1Prop : ParsedProposal :=
  { vendor_name := "PT Alpha Consulting", vendor_address := "",
    amount := 10, category := "General", confidence := mkRat 1 2 }

/-- An empty ledger store. -/
def c2State : GovState :=
  { vendors := [], budgets := [], velocity := [], auditLogs := [] }

/-- A proposal with a malformed nonempty address and an unknown vendor:
it fails both the address-validity check and the whitelist check. -/
def c2Prop : ParsedProposal :=
  { vendor_name := "Foo Bar", vendor_address := "0xzz", amount := 10,
    category := "FX", confidence := 0 }

/-- The (rejected) evaluation of `c2Prop` against the empty store. -/
def c2Res : AuditResult := audit_decision c2State c2Prop

/-- An INACTIVE vendor (`is_active = false`). -/
def c4Vendor : WhitelistedVendor :=
  { vendor_name := "PT Beta Services",
    wallet_address := "0xbbbbbbbbbbbbbbbbbbbbbbbbbbbbbbbbbbbbbbbb",
    category := "Software", max_transaction_limit := 100, is_active := false }

/-- A store holding only the inactive `c4Vendor` and a funded Software
budget. -/
def c4State : GovState :=
  { vendors := [c4Vendor],
    budgets := [{ category := "Software", monthly_limit_mnee := 1000,
                  current_spent := 0 }],
    velocity := [], auditLogs := [] }

/-- A proposal naming `c4Vendor` but carrying a WALLET ADDRESS DIFFERENT
from the vendor's stored one. -/
def c4Prop : ParsedProposal :=
  { vendor_name := "PT Beta Services",
    vendor_address := "0xcccccccccccccccccccccccccccccccccccccccc",
    amount := 10, category := "Software", confidence := 1 }

/-- A 42-character string starting with "0x" whose remaining 40
characters are not hexadecimal. -/
def zAddr : String := "0xzzzzzzzzzzzzzzzzzzzzzzzzzzzzzzzzzzzzzzzz"

/-- An active vendor for the approval fixture. -/
def c6Vendor : WhitelistedVendor :=
  { vendor_name := "PT Delta Software",
    wallet_address := "0xffffffffffffffffffffffffffffffffffffffff",
    category := "Software", max_transaction_limit := 100, is_active := true }

/-- A store holding `c6Vendor` and a funded Software budget, with an
empty audit log. -/
def c6State : GovState :=
  { vendors := [c6Vendor],
    budgets := [{ category := "Software", monthly_limit_mnee := 1000,
                  current_spent := 0 }],
    velocity := [], auditLogs := [] }

/-- A fully well-formed proposal that passes every check. -/
def c6Prop : ParsedProposal :=
  { vendor_name := "PT Delta Software",
    vendor_address := "0xffffffffffffffffffffffffffffffffffffffff",
    amount := 10, category := "Software", confidence := 1 }

/-- The (approved) evaluation of `c6Prop`. -/
def c6Res : AuditResult := audit_decision c6State c6Prop

/-- An active vendor with a 30 MNEE transaction limit. -/
def c8Vendor : WhitelistedVendor :=
  { vendor_name := "PT Gamma Exchange",
    wallet_address := "0xdddddddddddddddddddddddddddddddddddddddd",
    category := "FX", max_transaction_limit := 30, is_active := true }

/-- A store holding `c8Vendor` and an FX budget with 200 MNEE
remaining. -/
def c8State : GovState :=
  { vendors := [c8Vendor],
    budgets := [{ category := "FX", monthly_limit_mnee := 200,
                  current_spent := 0 }],
    velocity := [], auditLogs := [] }

/-- A 50 MNEE request against `c8Vendor` (limit 30, overage 20). -/
def c8Prop : ParsedProposal :=
  { vendor_name := "PT Gamma Exchange",
    vendor_address := "0xdddddddddddddddddddddddddddddddddddddddd",
    amount := 50, category := "FX", confidence := 1 }

/-- A store for the zero-amount fixture: an active vendor and a funded
budget for the proposal's category. -/
def c9State : GovState :=
  { vendors := [c1Vendor],
    budgets := [{ category := "General", monthly_limit_mnee := 1000,
                  current_spent := 0 }],
    velocity := [], auditLogs := [] }

/-- A proposal whose amount is 0 — the value `_parse_proposal_text`
assigns when no amount can be extracted from the text. -/
def c9Prop : ParsedProposal :=
  { vendor_name := "PT Alpha Consulting",
    vendor_address := "0xaaaaaaaaaaaaaaaaaaaaaaaaaaaaaaaaaaaaaaaa",
    amount := 0, category := "General", confidence := mkRat 8 10 }

/-- A velocity window opened at hour 100 with exactly
`MAX_TRANSACTIONS_PER_VENDOR_PER_DAY` transactions recorded. -/
def c10Rec : VelocityRecord :=
  { id := 0, vendor_address := "0xv", window_start := 100,
    transaction_count := 10, total_amount := 50 }

/-! ### Theorems

`Rat.add`, `Rat.sub`, `Rat.mul` and `Rat.inv` are `@[irreducible]` in the
library, which blocks kernel evaluation of concrete rational arithmetic;
they are restored to `semireducible` so that `decide` can evaluate the
embedding on concrete inputs. -/

set_option allowUnsafeReducibility true

attribute [semireducible] Rat.add Rat.sub Rat.mul Rat.inv

/-- Helper: the empty pattern occurs in every list. -/
theorem containsAux_nil (l : List Char) : containsAux [] l = true := by
  cases l <;> simp [containsAux, List.isPrefixOf]

/-- Helper: a list is a prefix of itself followed by anything. -/
theorem isPrefixOf_append_self :
    ∀ l t : List Char, List.isPrefixOf l (l ++ t) = true
  | [], _ => by simp [List.isPrefixOf]
  | c :: cs, t => by simp [List.isPrefixOf, isPrefixOf_append_self cs t]

/-- Helper: a pattern occurs in any list that embeds it contiguously. -/
theorem containsAux_append (pat l₂ : List Char) :
    ∀ l₁ : List Char, containsAux pat (l₁ ++ (pat ++ l₂)) = true
  | [] => by
    cases pat with
    | nil => simpa using containsAux_nil l₂
    | cons p ps => simp [containsAux, isPrefixOf_append_self]
  | c :: cs => by simp [containsAux, containsAux_append pat l₂ cs]

/-- C1: `settings.py` documents `CONFIDENCE_THRESHOLD = 0.70` as the
"70% minimum confidence for approval", and the claim says a proposal
parsed below it is rejected for insufficient parsing confidence before
any lookup.  The code never consults the threshold: this fixture's
proposal carries the parse confidence 0.5 (exactly the score
`_parse_proposal_text` computes for its fields), is below 0.70, and
`audit_proposal` still APPROVES it. -/
theorem claim_C1 :
    c1Prop.confidence =
      parseConfidence c1Prop.vendor_name c1Prop.vendor_address
        c1Prop.amount c1Prop.category ∧
    c1Prop.confidence < CONFIDENCE_THRESHOLD ∧
    (audit_decision c1State c1Prop).decision = "APPROVED" :=
  ⟨by decide, by decide, by decide⟩

/-- C3 counterexample: a velocity lookup failure does NOT yield an
unsafe verdict — `check_transaction_velocity` answers safe (`True`),
with a reason string that itself says it is "defaulting to allow". -/
theorem claim_C3_counterexample :
    check_transaction_velocity (.error ()) 0 "0xabc" 5 =
      (true, "Velocity check unavailable (defaulting to allow)") := rfl

/-- C3 as amended: whitelist and budget lookups fail closed — an
unanswerable whitelist lookup reports "not whitelisted" and an
unanswerable budget lookup reports zero remaining, so any positive
request fails the budget comparison — but the velocity lookup fails
OPEN: on error it reports safe. -/
theorem claim_C3 (wladdr cat vaddr : String) (now : ℤ) (amt a : ℚ)
    (ha : 0 < a) :
    is_vendor_whitelisted (.error ()) wladdr = (false, none) ∧
    get_remaining_budget (.error ()) cat = (0, 0) ∧
    ¬(a ≤ (get_remaining_budget (.error ()) cat).1) ∧
    (check_transaction_velocity (.error ()) now vaddr amt).1 = true := by
  refine ⟨rfl, rfl, ?_, rfl⟩
  simpa [get_remaining_budget] using not_le.mpr ha

/-- C3 witness: the amended statement at concrete inputs. -/
theorem claim_C3_witness :
    is_vendor_whitelisted (.error ()) "0xabc" = (false, none) ∧
    get_remaining_budget (.error ()) "FX" = (0, 0) ∧
    ¬((5 : ℚ) ≤ (get_remaining_budget (.error ()) "FX").1) ∧
    (check_transaction_velocity (.error ()) 0 "0xv" 7).1 = true :=
  claim_C3 "0xabc" "FX" "0xv" 0 7 5 (by decide)

/-- Helper: characterisation of `startsWith0xAux`. -/
theorem startsWith0xAux_iff (l : List Char) :
    startsWith0xAux l = true ↔ ∃ cs, l = '0' :: 'x' :: cs := by
  rcases l with _ | ⟨c1, _ | ⟨c2, rest⟩⟩ <;> simp [startsWith0xAux, and_assoc]

/-- Helper: characterisation of `startsWith0x`. -/
theorem startsWith0x_iff (s : String) :
    startsWith0x s = true ↔ ∃ cs, s.data = '0' :: 'x' :: cs := by
  simp [startsWith0x, startsWith0xAux_iff]

/-- C5 counterexample: the source's address check accepts a
42-character string starting with "0x" whose remaining characters are
not hexadecimal, which the claim says must be rejected. -/
theorem claim_C5_counterexample :
    valid_address zAddr = true ∧
    zAddr.data.length = 42 ∧
    startsWith0x zAddr = true ∧
    specIsValidAddress zAddr = false :=
  ⟨by decide, by decide, by decide, by decide⟩

/-- C5 as amended: the source's address check accepts a string iff it is
nonempty, 42 characters long and begins with "0x" — hexadecimality of
the remaining 40 characters is NOT required. -/
theorem claim_C5 (s : String) :
    valid_address s = true ↔
      s.data ≠ [] ∧ s.data.length = 42 ∧ ∃ cs, s.data = '0' :: 'x' :: cs := by
  simp [valid_address, startsWith0x_iff, Bool.and_eq_true, and_assoc]

/-- Helper: a nonempty string has non-empty character data. -/
theorem data_isEmpty_eq_false {s : String} (h : s ≠ "") :
    s.data.isEmpty = false := by
  rcases s with ⟨l⟩
  cases l with
  | nil => exact absurd rfl h
  | cons c cs => rfl

/-- Helper: the head of a filtered list either does not exist and no
element satisfies the predicate, or is an element satisfying it. -/
theorem head?_filter_cases {α : Type} (p : α → Bool) (l : List α) :
    ((l.filter p).head? = none ∧ ∀ a ∈ l, ¬p a = true) ∨
    (∃ v, (l.filter p).head? = some v ∧ v ∈ l ∧ p v = true) := by
  rcases hf : l.filter p with _ | ⟨v, vs⟩
  · exact Or.inl ⟨by simp [hf], by simpa using List.filter_eq_nil_iff.mp hf⟩
  · have hv : v ∈ l.filter p := by simp [hf]
    exact Or.inr ⟨v, by simp [hf], (List.mem_filter.mp hv).1,
      (List.mem_filter.mp hv).2⟩

/-- C2 counterexample: against an empty store, a proposal with a
malformed nonempty address fails BOTH the address-validity check and
the whitelist check, yet the reported rejection reason is the whitelist
one — so address validity is not the first check of the ladder. -/
theorem claim_C2_counterexample :
    valid_address c2Prop.vendor_address = false ∧
    c2Prop.vendor_address ≠ "" ∧
    (check_compliance c2State c2Prop).vendor_whitelisted = false ∧
    (audit_decision c2State c2Prop).reasoning =
      reasoningWhitelist c2Prop.vendor_name ∧
    reasoningWhitelist c2Prop.vendor_name ≠ reasoningAddress :=
  ⟨by decide, by decide, by decide, by decide, by decide⟩

/-- Helper: `velocity_ok` is constantly true — `_check_compliance`
never issues a velocity query. -/
theorem velocity_ok_const (st : GovState) (p : ParsedProposal) :
    (check_compliance st p).velocity_ok = true := by
  rcases hw : firstWord? p.vendor_name with _ | w <;>
    simp [check_compliance, hw]

/-- Helper: a failed whitelist check yields the whitelist rejection,
whatever the other checks say. -/
theorem audit_reject_whitelist (st : GovState) (p : ParsedProposal)
    (h1 : (check_compliance st p).vendor_whitelisted = false) :
    (audit_decision st p).decision = "REJECTED" ∧
    (audit_decision st p).reasoning = reasoningWhitelist p.vendor_name := by
  simp [audit_decision, h1]

/-- Helper: with the whitelist check passed, a failed budget check
yields the budget rejection. -/
theorem audit_reject_budget (st : GovState) (p : ParsedProposal)
    (h1 : (check_compliance st p).vendor_whitelisted = true)
    (h2 : (check_compliance st p).within_budget = false) :
    (audit_decision st p).decision = "REJECTED" ∧
    (audit_decision st p).reasoning =
      reasoningBudget p.amount
        ((check_compliance st p).budgetRemaining.getD 0) p.category := by
  simp [audit_decision, h1, h2]

/-- Helper: with whitelist and budget passed, a failed transaction-limit
check yields the limit rejection. -/
theorem audit_reject_txlimit (st : GovState) (p : ParsedProposal)
    (h1 : (check_compliance st p).vendor_whitelisted = true)
    (h2 : (check_compliance st p).within_budget = true)
    (h3 : (check_compliance st p).within_tx_limit = false) :
    (audit_decision st p).decision = "REJECTED" ∧
    (audit_decision st p).reasoning =
      reasoningTxLimit p.amount
        (((check_compliance st p).vendorDetail.map
            WhitelistedVendor.max_transaction_limit).getD 0) := by
  simp [audit_decision, h1, h2, h3]

/-- Helper: with the first three checks passed, an invalid nonempty
address yields the address rejection. -/
theorem audit_reject_address (st : GovState) (p : ParsedProposal)
    (h1 : (check_compliance st p).vendor_whitelisted = true)
    (h2 : (check_compliance st p).within_budget = true)
    (h3 : (check_compliance st p).within_tx_limit = true)
    (h4 : (check_compliance st p).valid_address = false)
    (h5 : p.vendor_address ≠ "") :
    (audit_decision st p).decision = "REJECTED" ∧
    (audit_decision st p).reasoning = reasoningAddress := by
  simp [audit_decision, h1, h2, h3, h4, data_isEmpty_eq_false h5]

/-- Helper: with every check passed (or the address empty, which skips
the address branch), the proposal is approved. -/
theorem audit_approved (st : GovState) (p : ParsedProposal)
    (h1 : (check_compliance st p).vendor_whitelisted = true)
    (h2 : (check_compliance st p).within_budget = true)
    (h3 : (check_compliance st p).within_tx_limit = true)
    (h4 : (check_compliance st p).valid_address = true ∨
      p.vendor_address = "") :
    (audit_decision st p).decision = "APPROVED" ∧
    (audit_decision st p).reasoning = reasoningApproved := by
  rcases h4 with h4 | h4 <;> simp [audit_decision, h1, h2, h3, h4]

/-- C2 as amended: the decision ladder runs vendor whitelist → category
budget → vendor transaction limit → address validity (the address
branch firing only for a nonempty parsed address), short-circuiting at
the first failure, and no velocity check takes part (`velocity_ok` is
constantly true and never consulted).  In particular the claim's
"whitelist failure wins over budget failure" does hold: whenever the
whitelist check fails, the whitelist reason is reported regardless of
the budget check. -/
theorem claim_C2 (st : GovState) (p : ParsedProposal) :
    ((check_compliance st p).velocity_ok = true) ∧
    ((check_compliance st p).vendor_whitelisted = false →
      (audit_decision st p).decision = "REJECTED" ∧
      (audit_decision st p).reasoning = reasoningWhitelist p.vendor_name) ∧
    ((check_compliance st p).vendor_whitelisted = true →
      (check_compliance st p).within_budget = false →
      (audit_decision st p).decision = "REJECTED" ∧
      (audit_decision st p).reasoning =
        reasoningBudget p.amount
          ((check_compliance st p).budgetRemaining.getD 0) p.category) ∧
    ((check_compliance st p).vendor_whitelisted = true →
      (check_compliance st p).within_budget = true →
      (check_compliance st p).within_tx_limit = false →
      (audit_decision st p).decision = "REJECTED" ∧
      (audit_decision st p).reasoning =
        reasoningTxLimit p.amount
          (((check_compliance st p).vendorDetail.map
              WhitelistedVendor.max_transaction_limit).getD 0)) ∧
    ((check_compliance st p).vendor_whitelisted = true →
      (check_compliance st p).within_budget = true →
      (check_compliance st p).within_tx_limit = true →
      (check_compliance st p).valid_address = false →
      p.vendor_address ≠ "" →
      (audit_decision st p).decision = "REJECTED" ∧
      (audit_decision st p).reasoning = reasoningAddress) ∧
    ((check_compliance st p).vendor_whitelisted = true →
      (check_compliance st p).within_budget = true →
      (check_compliance st p).within_tx_limit = true →
      ((check_compliance st p).valid_address = true ∨ p.vendor_address = "") →
      (audit_decision st p).decision = "APPROVED" ∧
      (audit_decision st p).reasoning = reasoningApproved) :=
  ⟨velocity_ok_const st p, audit_reject_whitelist st p,
   audit_reject_budget st p, audit_reject_txlimit st p,
   audit_reject_address st p, audit_approved st p⟩

/-- C2 witness: the whitelist-first conjunct applied to the concrete
doubly-failing proposal. -/
theorem claim_C2_witness :
    (audit_decision c2State c2Prop).decision = "REJECTED" ∧
    (audit_decision c2State c2Prop).reasoning =
      reasoningWhitelist c2Prop.vendor_name :=
  (claim_C2 c2State c2Prop).2.1 (by decide)

/-- Helper: pre-filtering a vendor table by `is_active` does not change
a filter whose predicate already requires `is_active`. -/
theorem filter_and_active (q : WhitelistedVendor → Bool)
    (l : List WhitelistedVendor) :
    l.filter (fun v => q v && v.is_active) =
      (l.filter fun v => v.is_active).filter (fun v => q v && v.is_active) := by
  rw [List.filter_filter]
  apply List.filter_congr
  intro a _
  cases q a <;> cases a.is_active <;> rfl

/-- C4 counterexample: the pipeline's whitelist check matches the
INACTIVE `c4Vendor` on a proposal whose wallet address differs from the
vendor's stored one, and the full evaluation APPROVES it — an inactive
vendor is not treated as absent by the evaluation, and the lookup is
not by wallet address. -/
theorem claim_C4_counterexample :
    c4Vendor.is_active = false ∧
    c4State.vendors = [c4Vendor] ∧
    lowerStr c4Prop.vendor_address ≠ lowerStr c4Vendor.wallet_address ∧
    (check_compliance c4State c4Prop).vendor_whitelisted = true ∧
    (audit_decision c4State c4Prop).decision = "APPROVED" :=
  ⟨rfl, rfl, by decide, by decide, by decide⟩

/-- C4 as amended: the ledger-store helper `is_vendor_whitelisted` does
look up by lower-cased wallet address and does treat an inactive vendor
identically to an absent one (inactive rows are invisible to it), but
the compliance evaluation's own whitelist check instead matches the
first word of the parsed vendor name case-insensitively against stored
vendor names, ignoring both the wallet address and `is_active`. -/
theorem claim_C4 :
    (∀ (table : List WhitelistedVendor) (addr : String),
      is_vendor_whitelisted (.ok table) addr =
        is_vendor_whitelisted (.ok (table.filter fun v => v.is_active)) addr) ∧
    (∀ (table : List WhitelistedVendor) (addr : String),
      (is_vendor_whitelisted (.ok table) addr).1 = true ↔
        ∃ v ∈ table, v.wallet_address = lowerStr addr ∧ v.is_active = true) ∧
    (∀ (st : GovState) (p : ParsedProposal),
      (check_compliance st p).vendor_whitelisted = true ↔
        ∃ w, firstWord? p.vendor_name = some w ∧
          ∃ v ∈ st.vendors, vendorNameMatches w v = true) := by
  refine ⟨?_, ?_, ?_⟩
  · intro table addr
    simp only [is_vendor_whitelisted]
    rw [← filter_and_active]
  · intro table addr
    constructor
    · intro h
      rcases head?_filter_cases
          (fun v => decide (v.wallet_address = lowerStr addr) && v.is_active)
          table with ⟨h0, hall⟩ | ⟨v, hsome, hv, hp⟩
      · simp [is_vendor_whitelisted, h0] at h
      · simp only [Bool.and_eq_true, decide_eq_true_eq] at hp
        exact ⟨v, hv, hp.1, hp.2⟩
    · rintro ⟨v, hmem, hwa, ha⟩
      rcases head?_filter_cases
          (fun v => decide (v.wallet_address = lowerStr addr) && v.is_active)
          table with ⟨h0, hall⟩ | ⟨v', hsome, hv', hp'⟩
      · exact absurd (by simp [hwa, ha]) (hall v hmem)
      · simp [is_vendor_whitelisted, hsome]
  · intro st p
    rcases hw : firstWord? p.vendor_name with _ | w
    · constructor
      · intro h
        simp [check_compliance, hw] at h
      · rintro ⟨w', hw', -⟩
        cases hw'
    · constructor
      · intro h
        rcases head?_filter_cases (vendorNameMatches w) st.vendors with
          ⟨h0, hall⟩ | ⟨v, hsome, hv, hp⟩
        · simp [check_compliance, hw, h0] at h
        · exact ⟨w, rfl, v, hv, hp⟩
      · rintro ⟨w', hw', v, hmem, hm⟩
        injection hw' with hww
        subst hww
        rcases head?_filter_cases (vendorNameMatches w) st.vendors with
          ⟨h0, hall⟩ | ⟨v', hsome, hv', hp'⟩
        · exact absurd hm (hall v hmem)
        · simp [check_compliance, hw, hsome]

/-- C6 counterexample: an APPROVED decision with no execution attempted
writes ZERO audit entries, not one — the claim's "exactly one entry
regardless of outcome" fails on the approval path. -/
theorem claim_C6_counterexample :
    c6Res.decision = "APPROVED" ∧
    record_outcome c6State 0 0 "t" c6Res none = c6State ∧
    (record_outcome c6State 0 0 "t" c6Res none).auditLogs.length = 0 :=
  ⟨by decide, by decide, by decide⟩

/-- C6 as amended: the recording flow writes exactly one audit entry on
a REJECTED decision, exactly one on an APPROVED decision whose
execution ran and reported success, and none otherwise (approval with
no execution, or with a failed execution). -/
theorem claim_C6 (st : GovState) (now : ℤ) (newId : ℕ) (text : String)
    (res : AuditResult) (exec : Option TxResult) :
    (record_outcome st now newId text res exec).auditLogs.length =
      st.auditLogs.length +
        (if res.decision = "APPROVED" then
          (match exec with
           | some t => if t.success then 1 else 0
           | none => 0)
         else 1) := by
  by_cases hd : res.decision = "APPROVED"
  · rcases exec with _ | t
    · simp [record_outcome, hd]
    · cases hs : t.success <;> simp [record_outcome, hd, hs]
  · simp [record_outcome, hd]

/-- C7: on a REJECTED decision, or on an APPROVED decision with no
execution result supplied, the recording flow leaves the budgets table
and the velocity table untouched — only the audit log may change. -/
theorem claim_C7 (st : GovState) (now : ℤ) (newId : ℕ) (text : String)
    (res : AuditResult) (exec : Option TxResult)
    (h : res.decision = "REJECTED" ∨ exec = none) :
    (record_outcome st now newId text res exec).budgets = st.budgets ∧
    (record_outcome st now newId text res exec).velocity = st.velocity := by
  rcases h with h | h
  · have hd : ¬res.decision = "APPROVED" := by simp [h]
    simp [record_outcome, hd]
  · subst h
    by_cases hd : res.decision = "APPROVED" <;> simp [record_outcome, hd]

/-- C7 witness: the frame property at the concrete rejected fixture. -/
theorem claim_C7_witness :
    (record_outcome c2State 0 0 "t" c2Res none).budgets = c2State.budgets ∧
    (record_outcome c2State 0 0 "t" c2Res none).velocity =
      c2State.velocity :=
  claim_C7 c2State 0 0 "t" c2Res none (Or.inl (by decide))

/-- Helper: when the pipeline bound a vendor, `within_tx_limit` is the
comparison of the amount against that vendor's limit. -/
theorem check_compliance_tx_limit (st : GovState) (p : ParsedProposal)
    (v : WhitelistedVendor)
    (hv : (check_compliance st p).vendorDetail = some v) :
    (check_compliance st p).within_tx_limit =
      decide (p.amount ≤ v.max_transaction_limit) := by
  rcases hw : firstWord? p.vendor_name with _ | w
  · simp [check_compliance, hw] at hv
  · rcases hf : (st.vendors.filter (vendorNameMatches w)).head? with _ | v'
    · simp [check_compliance, hw, hf] at hv
    · simp only [check_compliance, hw, hf] at hv ⊢
      injection hv with hvv
      subst hvv
      rfl

/-- Helper: when the pipeline found a budget row, `within_budget` is
the comparison of the amount against the remaining budget. -/
theorem check_compliance_budget (st : GovState) (p : ParsedProposal)
    (r : ℚ) (hb : (check_compliance st p).budgetRemaining = some r) :
    (check_compliance st p).within_budget = decide (p.amount ≤ r) := by
  rcases hw : firstWord? p.vendor_name with _ | w
  · simp [check_compliance, hw] at hb
  · rcases hf : (st.budgets.filter fun b => b.category = p.category).head?
        with _ | b
    · simp [check_compliance, hw, hf] at hb
    · simp only [check_compliance, hw, hf] at hb ⊢
      injection hb with hbb
      subst hbb
      rfl

/-- Helper: `renderAmount a` occurs in the transaction-limit reasoning
string. -/
theorem strContains_reasoningTxLimit_amount (a l : ℚ) :
    strContains (reasoningTxLimit a l) (renderAmount a) = true := by
  unfold strContains reasoningTxLimit
  simp only [String.data_append, List.append_assoc]
  exact containsAux_append _ _ _

/-- Helper: `renderAmount l` occurs in the transaction-limit reasoning
string. -/
theorem strContains_reasoningTxLimit_limit (a l : ℚ) :
    strContains (reasoningTxLimit a l) (renderAmount l) = true := by
  unfold strContains reasoningTxLimit
  have h := containsAux_append (renderAmount l).data " MNEE.".data
    ("Amount ".data ++ ((renderAmount a).data ++
      " MNEE exceeds vendor\x27s transaction limit of ".data))
  simpa [String.data_append, List.append_assoc] using h

/-- C8 counterexample: the 50 MNEE request against a 30 MNEE limit is
rejected with a reasoning string that cites 50 and 30 but does NOT
contain the overage 20 in any form — the claim's "reason includes the
overage" fails. -/
theorem claim_C8_counterexample :
    (audit_decision c8State c8Prop).decision = "REJECTED" ∧
    (audit_decision c8State c8Prop).reasoning = reasoningTxLimit 50 30 ∧
    c8Prop.amount - c8Vendor.max_transaction_limit = 20 ∧
    strContains (reasoningTxLimit 50 30) (renderAmount 20) = false ∧
    strContains (reasoningTxLimit 50 30) "20" = false :=
  ⟨by decide, by decide, by decide, by decide, by decide⟩

/-- C8 as amended: a proposal that passes whitelist and budget but
exceeds the bound vendor's transaction limit is rejected with a reason
containing the requested amount and the limit (the overage is not
part of it). -/
theorem claim_C8 (st : GovState) (p : ParsedProposal)
    (v : WhitelistedVendor)
    (h1 : (check_compliance st p).vendor_whitelisted = true)
    (h2 : (check_compliance st p).within_budget = true)
    (hv : (check_compliance st p).vendorDetail = some v)
    (hlim : v.max_transaction_limit < p.amount) :
    (audit_decision st p).decision = "REJECTED" ∧
    (audit_decision st p).reasoning =
      reasoningTxLimit p.amount v.max_transaction_limit ∧
    strContains (reasoningTxLimit p.amount v.max_transaction_limit)
      (renderAmount p.amount) = true ∧
    strContains (reasoningTxLimit p.amount v.max_transaction_limit)
      (renderAmount v.max_transaction_limit) = true := by
  have h3 : (check_compliance st p).within_tx_limit = false := by
    rw [check_compliance_tx_limit st p v hv]
    simp [not_le.mpr hlim]
  have hl := audit_reject_txlimit st p h1 h2 h3
  refine ⟨hl.1, ?_, strContains_reasoningTxLimit_amount _ _,
    strContains_reasoningTxLimit_limit _ _⟩
  rw [hl.2, hv]
  simp

/-- C8 witness: the amended statement at the concrete 50-against-30
fixture. -/
theorem claim_C8_witness :
    (audit_decision c8State c8Prop).decision = "REJECTED" ∧
    (audit_decision c8State c8Prop).reasoning =
      reasoningTxLimit c8Prop.amount c8Vendor.max_transaction_limit ∧
    strContains
      (reasoningTxLimit c8Prop.amount c8Vendor.max_transaction_limit)
      (renderAmount c8Prop.amount) = true ∧
    strContains
      (reasoningTxLimit c8Prop.amount c8Vendor.max_transaction_limit)
      (renderAmount c8Vendor.max_transaction_limit) = true :=
  claim_C8 c8State c8Prop c8Vendor (by decide) (by decide) (by decide)
    (by decide)

/-- C9 counterexample: a zero-amount proposal (the amount assigned when
none can be extracted) is not rejected — with a whitelisted vendor and
a funded budget row it is APPROVED. -/
theorem claim_C9_counterexample :
    c9Prop.amount = 0 ∧
    ¬(0 < c9Prop.amount) ∧
    (audit_decision c9State c9Prop).decision = "APPROVED" :=
  ⟨rfl, by decide, by decide⟩

/-- C9 as amended: the evaluation is total — it always yields APPROVED
or REJECTED, never a fatal error — but applies no positivity check to
the amount: a non-positive amount passes the transaction-limit
comparison against any nonnegative limit and the budget comparison
against any nonnegative remaining budget. -/
theorem claim_C9 :
    (∀ (st : GovState) (p : ParsedProposal),
      (audit_decision st p).decision = "APPROVED" ∨
      (audit_decision st p).decision = "REJECTED") ∧
    (∀ (st : GovState) (p : ParsedProposal) (v : WhitelistedVendor),
      (check_compliance st p).vendorDetail = some v →
      p.amount ≤ 0 → 0 ≤ v.max_transaction_limit →
      (check_compliance st p).within_tx_limit = true) ∧
    (∀ (st : GovState) (p : ParsedProposal) (r : ℚ),
      (check_compliance st p).budgetRemaining = some r →
      p.amount ≤ 0 → 0 ≤ r →
      (check_compliance st p).within_budget = true) := by
  refine ⟨?_, ?_, ?_⟩
  · intro st p
    cases h1 : (check_compliance st p).vendor_whitelisted <;>
    cases h2 : (check_compliance st p).within_budget <;>
    cases h3 : (check_compliance st p).within_tx_limit <;>
    cases h4 : (check_compliance st p).valid_address <;>
    cases h5 : p.vendor_address.data.isEmpty <;>
      simp [audit_decision, h1, h2, h3, h4, h5]
  · intro st p v hv ha hl
    rw [check_compliance_tx_limit st p v hv]
    simp only [decide_eq_true_eq]
    exact le_trans ha hl
  · intro st p r hb ha hr
    rw [check_compliance_budget st p r hb]
    simp only [decide_eq_true_eq]
    exact le_trans ha hr

/-- C9 witness: the amended statement at the concrete zero-amount
fixture. -/
theorem claim_C9_witness :
    ((audit_decision c9State c9Prop).decision = "APPROVED" ∨
      (audit_decision c9State c9Prop).decision = "REJECTED") ∧
    (check_compliance c9State c9Prop).within_tx_limit = true :=
  ⟨claim_C9.1 c9State c9Prop,
   claim_C9.2.1 c9State c9Prop c1Vendor (by decide) (by decide) (by decide)⟩

/-- C10: on an answering store holding at most one active window for
the address (the data model keeps one window per vendor), the velocity
check is unsafe exactly when an active window with at least
`MAX_TRANSACTIONS_PER_VENDOR_PER_DAY` (10) transactions exists, and the
unsafe reason names the 10/day limit; concretely, a window holding
exactly 10 transactions blocks the next transaction at hour 110 and no
longer blocks at hour 125, after the 24-hour window has elapsed. -/
theorem claim_C10 (records : List VelocityRecord) (now : ℤ)
    (addr : String) (amt : ℚ)
    (huniq : (records.filter (activeFor now addr)).length ≤ 1) :
    ((check_transaction_velocity (.ok records) now addr amt).1 = false ↔
      ∃ r ∈ records, activeFor now addr r = true ∧
        MAX_TRANSACTIONS_PER_VENDOR_PER_DAY ≤ r.transaction_count) ∧
    ((check_transaction_velocity (.ok records) now addr amt).1 = false →
      (check_transaction_velocity (.ok records) now addr amt).2 =
        "Exceeded max transactions (10/day)") ∧
    (check_transaction_velocity (.ok [c10Rec]) 110 "0xv" 5).1 = false ∧
    (check_transaction_velocity (.ok [c10Rec]) 125 "0xv" 5).1 = true := by
  refine ⟨?_, ?_, by decide, by decide⟩
  · rcases hf : records.filter (activeFor now addr) with _ | ⟨r, rs⟩
    · simp only [check_transaction_velocity, hf, List.head?_nil]
      simp only [Bool.true_eq_false, false_iff, not_exists]
      rintro r ⟨hmem, hact, -⟩
      have hr : r ∈ records.filter (activeFor now addr) :=
        List.mem_filter.mpr ⟨hmem, hact⟩
      rw [hf] at hr
      cases hr
    · have hrs : rs = [] := by
        rw [hf] at huniq
        simpa using huniq
      subst hrs
      have hr : r ∈ records.filter (activeFor now addr) := by
        rw [hf]
        exact List.mem_cons_self r []
      have hr_in : r ∈ records := (List.mem_filter.mp hr).1
      have hr_act : activeFor now addr r = true := (List.mem_filter.mp hr).2
      by_cases hc :
          MAX_TRANSACTIONS_PER_VENDOR_PER_DAY ≤ r.transaction_count
      · simp only [check_transaction_velocity, hf, List.head?_cons, if_pos hc]
        simp only [true_iff]
        exact ⟨r, hr_in, hr_act, hc⟩
      · simp only [check_transaction_velocity, hf, List.head?_cons, if_neg hc]
        simp only [Bool.true_eq_false, false_iff, not_exists]
        rintro r' ⟨hmem', hact', hc'⟩
        have hr' : r' ∈ records.filter (activeFor now addr) :=
          List.mem_filter.mpr ⟨hmem', hact'⟩
        rw [hf] at hr'
        have : r' = r := by simpa using hr'
        subst this
        exact hc hc'
  · intro hfalse
    rcases hf : records.filter (activeFor now addr) with _ | ⟨r, rs⟩
    · simp [check_transaction_velocity, hf] at hfalse
    · by_cases hc :
          MAX_TRANSACTIONS_PER_VENDOR_PER_DAY ≤ r.transaction_count
      · simp only [check_transaction_velocity, hf, List.head?_cons, if_pos hc]
        decide
      · simp [check_transaction_velocity, hf, hc] at hfalse

/-- C10 witness: the characterisation applied to the one-window store
with exactly 10 transactions, at hour 110. -/
theorem claim_C10_witness :
    ((check_transaction_velocity (.ok [c10Rec]) 110 "0xv" 5).1 = false ↔
      ∃ r ∈ [c10Rec], activeFor 110 "0xv" r = true ∧
        MAX_TRANSACTIONS_PER_VENDOR_PER_DAY ≤ r.transaction_count) ∧
    ((check_transaction_velocity (.ok [c10Rec]) 110 "0xv" 5).1 = false →
      (check_transaction_velocity (.ok [c10Rec]) 110 "0xv" 5).2 =
        "Exceeded max transactions (10/day)") ∧
    (check_transaction_velocity (.ok [c10Rec]) 110 "0xv" 5).1 = false ∧
    (check_transaction_velocity (.ok [c10Rec]) 125 "0xv" 5).1 = true :=
  claim_C10 [c10Rec] 110 "0xv" 5 (by decide)

end MneeSentinel
